import Mathlib

/-!
Formal model of the tiered fallback chains of PlanMind.AI, translated from
`utils/ai_service.py`, `utils/database.py` and `utils/pdf_service.py`.

External collaborators (the Watson and OpenAI client libraries, the Supabase
store, the filesystem and the FPDF renderer) are modelled by explicit
environment records; the control flow of each Python function is translated
directly.  A Python call that is wrapped in `try/except` and yields `None`
on any failure is modelled as an `Option`-valued field of the environment.
-/

namespace PlanMind

/-! ### Generation fallback chain, from `utils/ai_service.py` -/

/-- Tiers of the generation fallback chain of `generate_strategy`, in the
fixed order the source tries them. -/
inductive Tier
  | primary
  | secondary
  | staticTier
deriving DecidableEq, Repr

/-- Environment of `ai_service.py`: the module-level availability flags set
at import time, and the observable behaviour of the two provider wrappers.
`generate_strategy_with_watson` and `generate_strategy_with_openai` catch
every exception internally and return `None` on any failure, so each is
modelled as a function into `Option String`. -/
structure AIEnv where
  IBM_AVAILABLE : Bool
  OPENAI_AVAILABLE : Bool
  generate_strategy_with_watson : String → String → Option String
  generate_strategy_with_openai : String → String → Option String

/-- Python truthiness of an optional string result, as used by the guards
`if response: return response` in `generate_strategy`: `None` and the empty
string are falsy, so only a non-empty string survives. -/
def truthyOpt : Option String → Option String
  | none => none
  | some s => if s == "" then none else some s

/-- Result of one provider tier: the wrapper is only called when the
corresponding availability flag is set. -/
def tierResult (available : Bool) (call : String → String → Option String)
    (business_problem context : String) : Option String :=
  if available then call business_problem context else none

/-- Hardcoded response of `generate_fallback_response`.  The Python source
is an f-string with no interpolation sites, so the function ignores both
arguments. -/
def generate_fallback_response (business_problem context : String) : String :=
  "# Strategic Approaches for Your Business Problem\n" ++
  "\n" ++
  "## Strategy 1: Digital Transformation Initiative\n" ++
  "**Description**: Leverage digital technologies to streamline operations and enhance customer experience.\n" ++
  "\n" ++
  "**Resource Allocation**:\n" ++
  "- **People**: 3-5 IT specialists, 1 project manager, department representatives\n" ++
  "- **Budget**: $50,000-$100,000 depending on scope\n" ++
  "- **Tools**: CRM system, automation software, analytics platform\n" ++
  "- **Timeline**: 6-8 months\n" ++
  "\n" ++
  "**Major Steps**:\n" ++
  "1. Conduct digital readiness assessment\n" ++
  "2. Identify high-impact processes for digitization\n" ++
  "3. Select and implement appropriate technologies\n" ++
  "4. Train staff on new systems\n" ++
  "5. Measure results and optimize\n" ++
  "\n" ++
  "**Risks & Limitations**:\n" ++
  "- **Risk**: Employee resistance to new technologies\n" ++
  "  - **Mitigation**: Comprehensive training program and change management\n" ++
  "- **Risk**: Technical implementation challenges\n" ++
  "  - **Mitigation**: Start with pilot projects before full rollout\n" ++
  "- **Risk**: Budget overruns\n" ++
  "  - **Mitigation**: Phased approach with clear ROI metrics for each phase\n" ++
  "\n" ++
  "## Strategy 2: Customer-Centric Restructuring\n" ++
  "**Description**: Reorganize business processes around customer journey and experiences.\n" ++
  "\n" ++
  "**Resource Allocation**:\n" ++
  "- **People**: External consultant, customer experience team (3-4 people)\n" ++
  "- **Budget**: $30,000-$60,000\n" ++
  "- **Tools**: Customer journey mapping software, feedback collection tools\n" ++
  "- **Timeline**: 3-5 months\n" ++
  "\n" ++
  "**Major Steps**:\n" ++
  "1. Map current customer journeys and identify pain points\n" ++
  "2. Collect and analyze customer feedback\n" ++
  "3. Redesign processes to eliminate friction points\n" ++
  "4. Implement changes in customer-facing departments\n" ++
  "5. Establish ongoing feedback mechanisms\n" ++
  "\n" ++
  "**Risks & Limitations**:\n" ++
  "- **Risk**: Misidentifying customer priorities\n" ++
  "  - **Mitigation**: Data-driven approach using multiple feedback channels\n" ++
  "- **Risk**: Internal resistance to change\n" ++
  "  - **Mitigation**: Create cross-functional teams to drive buy-in\n" ++
  "- **Risk**: Short-term disruption to service\n" ++
  "  - **Mitigation**: Implement changes gradually with careful monitoring\n" ++
  "\n" ++
  "## Strategy 3: Strategic Partnerships Expansion\n" ++
  "**Description**: Form partnerships with complementary businesses to expand offerings and reach.\n" ++
  "\n" ++
  "**Resource Allocation**:\n" ++
  "- **People**: Business development lead, legal advisor, operations coordinator\n" ++
  "- **Budget**: $20,000-$40,000 (excluding partnership investments)\n" ++
  "- **Tools**: CRM, collaboration tools, legal contract management\n" ++
  "- **Timeline**: 4-6 months for initial partnerships\n" ++
  "\n" ++
  "**Major Steps**:\n" ++
  "1. Identify partnership gaps and opportunities\n" ++
  "2. Research and shortlist potential partners\n" ++
  "3. Develop partnership proposals and approach candidates\n" ++
  "4. Negotiate terms and formalize agreements\n" ++
  "5. Launch joint initiatives\n" ++
  "\n" ++
  "**Risks & Limitations**:\n" ++
  "- **Risk**: Partner misalignment on goals or values\n" ++
  "  - **Mitigation**: Thorough vetting process and clear agreement terms\n" ++
  "- **Risk**: Dependency on external entities\n" ++
  "  - **Mitigation**: Diversify partnerships and maintain core competencies\n" ++
  "- **Risk**: Brand dilution\n" ++
  "  - **Mitigation**: Establish clear brand guidelines for partnership activities\n" ++
  "\n" ++
  "## Additional Optimization Recommendations\n" ++
  "\n" ++
  "- Implement AI-powered analytics to continuously monitor strategy performance\n" ++
  "- Consider a hybrid approach combining elements from multiple strategies\n" ++
  "- Establish a digital dashboard for real-time tracking of key metrics\n" ++
  "- Use scenario planning tools to prepare for potential market shifts\n"

/-- Translation of `generate_strategy`: try Watson when available, then
OpenAI when available, each guarded by Python truthiness of the response,
and finally the hardcoded fallback. -/
def generate_strategy (env : AIEnv) (business_problem context : String) : String :=
  (truthyOpt (tierResult env.IBM_AVAILABLE env.generate_strategy_with_watson
      business_problem context)).getD
    ((truthyOpt (tierResult env.OPENAI_AVAILABLE env.generate_strategy_with_openai
        business_problem context)).getD
      (generate_fallback_response business_problem context))

/-- Instrumented version of `generate_strategy` that also records, in
order, the tiers that were reached: a provider tier appears when its
wrapper is invoked, the static tier when the hardcoded fallback is
returned. -/
def generate_strategy_traced (env : AIEnv) (business_problem context : String) :
    String × List Tier :=
  match truthyOpt (tierResult env.IBM_AVAILABLE env.generate_strategy_with_watson
      business_problem context) with
  | some r => (r, [Tier.primary])
  | none =>
    let t1 : List Tier := if env.IBM_AVAILABLE then [Tier.primary] else []
    match truthyOpt (tierResult env.OPENAI_AVAILABLE env.generate_strategy_with_openai
        business_problem context) with
    | some r => (r, t1 ++ [Tier.secondary])
    | none =>
      (generate_fallback_response business_problem context,
        t1 ++ (if env.OPENAI_AVAILABLE then [Tier.secondary] else []) ++ [Tier.staticTier])

/-- Helper: `truthyOpt` only produces non-empty strings. -/
theorem truthyOpt_some_ne {r : Option String} {s : String}
    (h : truthyOpt r = some s) : s ≠ "" := by
  cases r with
  | none => simp [truthyOpt] at h
  | some t =>
    by_cases ht : t == ""
    · simp [truthyOpt, ht] at h
    · simp [truthyOpt, ht] at h
      subst h
      simpa using ht

/-- Helper: the hardcoded fallback text is non-empty. -/
theorem generate_fallback_response_ne (business_problem context : String) :
    generate_fallback_response business_problem context ≠ "" := by
  unfold generate_fallback_response
  decide

/-- C1: for every environment (including one where both providers are
unavailable or failing) and every input pair, `generate_strategy` returns a
non-empty string.  The function is total, so the model also witnesses that
no exception escapes. -/
theorem generate_strategy_nonempty (env : AIEnv) (business_problem context : String) :
    generate_strategy env business_problem context ≠ "" := by
  unfold generate_strategy
  cases h1 : truthyOpt (tierResult env.IBM_AVAILABLE env.generate_strategy_with_watson
      business_problem context) with
  | some r => simpa using truthyOpt_some_ne h1
  | none =>
    simp only [Option.getD_none]
    cases h2 : truthyOpt (tierResult env.OPENAI_AVAILABLE env.generate_strategy_with_openai
        business_problem context) with
    | some r => simpa using truthyOpt_some_ne h2
    | none =>
      simp only [Option.getD_none]
      exact generate_fallback_response_ne business_problem context

/-- C2: tier ordering of `generate_strategy`.  First part: when the primary
tier produced nothing usable (its wrapper threw, returned nothing or an
empty string, or Watson is unavailable) and OpenAI is available, the trace
visits the secondary tier right after the primary one and reaches the
static tier only when the secondary tier also fails.  Second part: the
static tier is reached only after every available provider tier has
failed.  Third part: no tier is visited twice (no retry within a tier). -/
theorem generate_strategy_tier_order (env : AIEnv) (business_problem context : String) :
    (truthyOpt (tierResult env.IBM_AVAILABLE env.generate_strategy_with_watson
        business_problem context) = none →
      env.OPENAI_AVAILABLE = true →
      ∃ rest,
        (generate_strategy_traced env business_problem context).2 =
          (if env.IBM_AVAILABLE then [Tier.primary] else []) ++ [Tier.secondary] ++ rest ∧
        (rest = [] ∨ rest = [Tier.staticTier]) ∧
        (rest = [Tier.staticTier] ↔
          truthyOpt (env.generate_strategy_with_openai business_problem context) = none)) ∧
    (Tier.staticTier ∈ (generate_strategy_traced env business_problem context).2 →
      truthyOpt (tierResult env.IBM_AVAILABLE env.generate_strategy_with_watson
        business_problem context) = none ∧
      truthyOpt (tierResult env.OPENAI_AVAILABLE env.generate_strategy_with_openai
        business_problem context) = none) ∧
    (generate_strategy_traced env business_problem context).2.Nodup := by
  refine ⟨?_, ?_, ?_⟩
  · intro h1 hOai
    unfold generate_strategy_traced
    rw [h1]
    cases h2 : truthyOpt (tierResult env.OPENAI_AVAILABLE env.generate_strategy_with_openai
        business_problem context) with
    | some r =>
      exact ⟨[], by simp [hOai], Or.inl rfl, by simp [tierResult, hOai] at h2; simp [h2]⟩
    | none =>
      refine ⟨[Tier.staticTier], by simp [hOai], Or.inr rfl, ?_⟩
      simp [tierResult, hOai] at h2
      simp [h2]
  · intro hmem
    unfold generate_strategy_traced at hmem
    cases h1 : truthyOpt (tierResult env.IBM_AVAILABLE env.generate_strategy_with_watson
        business_problem context) with
    | some r => rw [h1] at hmem; simp at hmem
    | none =>
      rw [h1] at hmem
      cases h2 : truthyOpt (tierResult env.OPENAI_AVAILABLE env.generate_strategy_with_openai
          business_problem context) with
      | some r =>
        rw [h2] at hmem
        cases hI : env.IBM_AVAILABLE <;> cases hO : env.OPENAI_AVAILABLE <;>
          simp [hI, hO] at hmem
      | none => exact ⟨rfl, rfl⟩
  · unfold generate_strategy_traced
    cases h1 : truthyOpt (tierResult env.IBM_AVAILABLE env.generate_strategy_with_watson
        business_problem context) with
    | some r => simp
    | none =>
      cases h2 : truthyOpt (tierResult env.OPENAI_AVAILABLE env.generate_strategy_with_openai
          business_problem context) with
      | some r => cases hI : env.IBM_AVAILABLE <;> simp [hI]
      | none =>
        cases hI : env.IBM_AVAILABLE <;> cases hO : env.OPENAI_AVAILABLE <;> simp [hI, hO]

/-- Environment used to instantiate the C2 witness: Watson available but
failing, OpenAI available and succeeding. -/
def envC2 : AIEnv where
  IBM_AVAILABLE := true
  OPENAI_AVAILABLE := true
  generate_strategy_with_watson := fun _ _ => none
  generate_strategy_with_openai := fun _ _ => some "secondary says hello"

/-- Witness for C2 at a concrete environment and concrete inputs. -/
theorem generate_strategy_tier_order_witness :
    (∃ rest,
      (generate_strategy_traced envC2 "p" "c").2 =
        (if envC2.IBM_AVAILABLE then [Tier.primary] else []) ++ [Tier.secondary] ++ rest ∧
      (rest = [] ∨ rest = [Tier.staticTier]) ∧
      (rest = [Tier.staticTier] ↔
        truthyOpt (envC2.generate_strategy_with_openai "p" "c") = none)) ∧
    (Tier.staticTier ∈ (generate_strategy_traced envC2 "p" "c").2 →
      truthyOpt (tierResult envC2.IBM_AVAILABLE envC2.generate_strategy_with_watson
        "p" "c") = none ∧
      truthyOpt (tierResult envC2.OPENAI_AVAILABLE envC2.generate_strategy_with_openai
        "p" "c") = none) ∧
    (generate_strategy_traced envC2 "p" "c").2.Nodup := by
  have h := generate_strategy_tier_order envC2 "p" "c"
  exact ⟨h.1 rfl rfl, h.2.1, h.2.2⟩

/-- C3: when both providers are unavailable, `generate_strategy` returns
the hardcoded fallback document; the result is the same for every pair of
inputs, and it contains the heading
"Strategic Approaches for Your Business Problem". -/
theorem generate_strategy_fallback_deterministic (env : AIEnv)
    (business_problem context business_problem2 context2 : String)
    (hIbm : env.IBM_AVAILABLE = false) (hOai : env.OPENAI_AVAILABLE = false) :
    generate_strategy env business_problem context =
      generate_fallback_response business_problem context ∧
    generate_strategy env business_problem context =
      generate_strategy env business_problem2 context2 ∧
    "Strategic Approaches for Your Business Problem".data <:+:
      (generate_strategy env business_problem context).data := by
  have hfb : ∀ p c : String, generate_strategy env p c = generate_fallback_response p c := by
    intro p c
    unfold generate_strategy
    simp [tierResult, hIbm, hOai, truthyOpt]
  refine ⟨hfb business_problem context, ?_, ?_⟩
  · rw [hfb business_problem context, hfb business_problem2 context2]
    rfl
  · rw [hfb business_problem context]
    unfold generate_fallback_response
    decide

/-- Environment used to instantiate the C3 witness: both providers
unavailable. -/
def envC3 : AIEnv where
  IBM_AVAILABLE := false
  OPENAI_AVAILABLE := false
  generate_strategy_with_watson := fun _ _ => none
  generate_strategy_with_openai := fun _ _ => none

/-- Witness for C3 at the concrete scenario inputs named by the spec. -/
theorem generate_strategy_fallback_deterministic_witness :
    generate_strategy envC3
        "Our e-commerce company is struggling with high customer acquisition costs"
        "Industry: Retail\nCompany Size: Small (11-50 employees)" =
      generate_fallback_response
        "Our e-commerce company is struggling with high customer acquisition costs"
        "Industry: Retail\nCompany Size: Small (11-50 employees)" ∧
    generate_strategy envC3
        "Our e-commerce company is struggling with high customer acquisition costs"
        "Industry: Retail\nCompany Size: Small (11-50 employees)" =
      generate_strategy envC3 "another problem" "another context" ∧
    "Strategic Approaches for Your Business Problem".data <:+:
      (generate_strategy envC3
        "Our e-commerce company is struggling with high customer acquisition costs"
        "Industry: Retail\nCompany Size: Small (11-50 employees)").data :=
  generate_strategy_fallback_deterministic envC3
    "Our e-commerce company is struggling with high customer acquisition costs"
    "Industry: Retail\nCompany Size: Small (11-50 employees)"
    "another problem" "another context" rfl rfl

/-! ### Persistence fallback chain, from `utils/database.py` -/

/-- A stored session record, modelling one JSON object of the local storage
array (the session dictionaries written by the app have only string
values).  Key lookup mirrors Python `dict.get`. -/
structure Record where
  kvs : List (String × String)
deriving DecidableEq, Repr

/-- Python `record.get(key)`: the value at `key`, or `None`. -/
def Record.get (r : Record) (k : String) : Option String :=
  (r.kvs.find? (fun p => p.1 == k)).map Prod.snd

/-- Python `record.get(key, default)`. -/
def Record.getD (r : Record) (k d : String) : String := (r.get k).getD d

/-- Observable states of the local storage file `local_storage.json`:
absent, present but not JSON, present with JSON that is not an array, or a
JSON array of records. -/
inductive FileState
  | missing
  | corrupt
  | nonArray
  | arr (records : List Record)
deriving DecidableEq, Repr

/-- Value of the Python variable `data` after the read phase of
`save_to_local_storage`: a missing or unparseable file is treated as the
empty array. -/
def dataOf : FileState → List Record
  | .arr records => records
  | _ => []

/-- Lexicographic comparison of character lists, modelling Python string
comparison by code point. -/
def lexLe : List Char → List Char → Bool
  | [], _ => true
  | _ :: _, [] => false
  | a :: as, b :: bs => if a = b then lexLe as bs else decide (a < b)

/-- Python `s <= t` on strings. -/
def pyStrLe (s t : String) : Bool := lexLe s.data t.data

/-- Sort key used by `get_sessions_from_local_storage`:
`x.get("timestamp", "")`. -/
def tsKey (r : Record) : String := r.getD "timestamp" ""

/-- Comparator realising Python `sort(key=..., reverse=True)`: `a` may come
before `b` exactly when the timestamp of `a` is at least that of `b`.  On
ties it keeps the original order, as Python's stable sort does. -/
def tsGe (a b : Record) : Bool := pyStrLe (tsKey b) (tsKey a)

/-- Translation of `save_to_local_storage`: read the existing array
(missing or corrupt file becomes the empty array; a parseable non-array
makes `data.append` raise, which is caught and yields `False` with the
file untouched), append the record and rewrite the file.  `writeOk` says
whether the rewrite succeeds; a failed rewrite leaves unspecified content
`failedFs`, since the file was opened for truncating write. -/
def save_to_local_storage (fs : FileState) (writeOk : Bool) (failedFs : FileState)
    (session_data : Record) : Bool × FileState :=
  match fs with
  | .nonArray => (false, fs)
  | _ =>
    if writeOk then (true, .arr (dataOf fs ++ [session_data]))
    else (false, failedFs)

/-- Outcome of the Supabase insert call in `save_to_database`: success, a
response carrying an error attribute, or a raised exception. -/
inductive RemoteInsert
  | ok
  | errorResp
  | throws
deriving DecidableEq, Repr

/-- Environment of `save_to_database`: whether `get_supabase_client`
returned a client, the outcome of the insert, the current rows of the
remote table, and the local file state with its write behaviour. -/
structure DBEnv where
  hasClient : Bool
  insertOutcome : RemoteInsert
  remoteRows : List Record
  fs : FileState
  writeOk : Bool
  failedFs : FileState

/-- Translation of `save_to_database`: insert into Supabase when a client
is configured, falling through to `save_to_local_storage` when the insert
reports an error or raises; without a client go to local storage
directly.  The value is the returned boolean together with the resulting
remote rows and local file state. -/
def save_to_database (env : DBEnv) (session_data : Record) :
    Bool × List Record × FileState :=
  if env.hasClient then
    match env.insertOutcome with
    | .ok => (true, env.remoteRows ++ [session_data], env.fs)
    | _ =>
      let r := save_to_local_storage env.fs env.writeOk env.failedFs session_data
      (r.1, env.remoteRows, r.2)
  else
    let r := save_to_local_storage env.fs env.writeOk env.failedFs session_data
    (r.1, env.remoteRows, r.2)

/-- Translation of `get_sessions_from_local_storage`: a missing or
unparseable file (and, via the caught `AttributeError`, a parseable
non-array) yields the empty list; otherwise filter by `user_id`, sort by
timestamp descending with Python's stable sort, and truncate to `limit`. -/
def get_sessions_from_local_storage (fs : FileState) (user_id : String) (limit : Nat) :
    List Record :=
  match fs with
  | .arr records =>
    ((records.filter (fun s => s.get "user_id" == some user_id)).mergeSort tsGe).take limit
  | _ => []

/-- Outcome of the Supabase query in `get_previous_sessions`. -/
inductive RemoteQuery
  | ok (data : List Record)
  | errorResp
  | throws

/-- Environment of `get_previous_sessions`. -/
structure LoadEnv where
  hasClient : Bool
  queryOutcome : RemoteQuery
  fs : FileState

/-- Translation of `get_previous_sessions`: query Supabase when a client is
configured, falling through to the local file on an error response or a
raised exception. -/
def get_previous_sessions (env : LoadEnv) (user_id : String) (limit : Nat) :
    List Record :=
  if env.hasClient then
    match env.queryOutcome with
    | .ok data => data
    | _ => get_sessions_from_local_storage env.fs user_id limit
  else
    get_sessions_from_local_storage env.fs user_id limit

/-- Helper: `lexLe` is total. -/
theorem lexLe_total (as : List Char) : ∀ bs, lexLe as bs = true ∨ lexLe bs as = true := by
  induction as with
  | nil => intro bs; left; rfl
  | cons a as ih =>
    intro bs
    cases bs with
    | nil => right; rfl
    | cons b bs =>
      by_cases hab : a = b
      · subst hab
        simpa [lexLe] using ih bs
      · rcases lt_or_gt_of_ne hab with h | h
        · left; simp [lexLe, hab, h]
        · right; simp [lexLe, Ne.symm hab, h]

/-- Helper: `lexLe` is transitive. -/
theorem lexLe_trans : ∀ as bs cs : List Char,
    lexLe as bs = true → lexLe bs cs = true → lexLe as cs = true := by
  intro as
  induction as with
  | nil => intro bs cs _ _; rfl
  | cons a as ih =>
    intro bs cs h1 h2
    cases bs with
    | nil => simp [lexLe] at h1
    | cons b bs =>
      cases cs with
      | nil => simp [lexLe] at h2
      | cons c cs =>
        by_cases hab : a = b <;> by_cases hbc : b = c
        · subst hab; subst hbc
          simp only [lexLe, if_pos rfl] at h1 h2 ⊢
          exact ih bs cs h1 h2
        · subst hab
          simp only [lexLe, if_pos rfl, if_neg hbc] at h2 ⊢
          simp [hbc] at h2 ⊢
          exact h2
        · subst hbc
          simp only [lexLe, if_neg hab] at h1 ⊢
          exact h1
        · simp only [lexLe, if_neg hab] at h1
          simp only [lexLe, if_neg hbc] at h2
          simp only [decide_eq_true_eq] at h1 h2
          have hac : a < c := lt_trans h1 h2
          simp [lexLe, ne_of_lt hac, hac]

/-- Helper: the descending-timestamp comparator is total. -/
theorem tsGe_total (a b : Record) : (tsGe a b || tsGe b a) = true := by
  rcases lexLe_total (tsKey b).data (tsKey a).data with h | h <;>
    simp [tsGe, pyStrLe, h]

/-- Helper: the descending-timestamp comparator is transitive. -/
theorem tsGe_trans (a b c : Record) (h1 : tsGe a b = true) (h2 : tsGe b c = true) :
    tsGe a c = true :=
  lexLe_trans _ _ _ h2 h1

/-- C5: `get_sessions_from_local_storage` returns the empty list on a
missing or unparseable file; for every file state it returns at most
`limit` records, every returned record carries the queried `user_id`, and
the result is sorted by timestamp descending. -/
theorem get_sessions_from_local_storage_spec (fs : FileState) (user_id : String)
    (limit : Nat) :
    (fs = .missing ∨ fs = .corrupt →
      get_sessions_from_local_storage fs user_id limit = []) ∧
    (get_sessions_from_local_storage fs user_id limit).length ≤ limit ∧
    (∀ r ∈ get_sessions_from_local_storage fs user_id limit,
      r.get "user_id" = some user_id) ∧
    List.Pairwise (fun a b => pyStrLe (tsKey b) (tsKey a) = true)
      (get_sessions_from_local_storage fs user_id limit) := by
  refine ⟨?_, ?_, ?_, ?_⟩
  · rintro (rfl | rfl) <;> rfl
  · cases fs with
    | arr records =>
      simp only [get_sessions_from_local_storage]
      exact List.length_take_le _ _
    | missing => simp [get_sessions_from_local_storage]
    | corrupt => simp [get_sessions_from_local_storage]
    | nonArray => simp [get_sessions_from_local_storage]
  · intro r hr
    cases fs with
    | arr records =>
      simp only [get_sessions_from_local_storage] at hr
      have hr2 := List.mem_mergeSort.mp (List.take_subset _ _ hr)
      have := (List.mem_filter.mp hr2).2
      simpa using this
    | missing => simp [get_sessions_from_local_storage] at hr
    | corrupt => simp [get_sessions_from_local_storage] at hr
    | nonArray => simp [get_sessions_from_local_storage] at hr
  · cases fs with
    | arr records =>
      have hs := List.sorted_mergeSort
        (fun a b c => tsGe_trans a b c) (fun a b => tsGe_total a b)
        (records.filter (fun s => s.get "user_id" == some user_id))
      have := hs.sublist (List.take_sublist limit _)
      simpa [get_sessions_from_local_storage, tsGe] using this
    | missing => simp [get_sessions_from_local_storage]
    | corrupt => simp [get_sessions_from_local_storage]
    | nonArray => simp [get_sessions_from_local_storage]

/-- Witness for C5 on a missing local storage file. -/
theorem get_sessions_from_local_storage_spec_witness :
    get_sessions_from_local_storage .missing "user-1" 10 = [] ∧
    (get_sessions_from_local_storage .missing "user-1" 10).length ≤ 10 ∧
    (∀ r ∈ get_sessions_from_local_storage .missing "user-1" 10,
      r.get "user_id" = some "user-1") ∧
    List.Pairwise (fun a b => pyStrLe (tsKey b) (tsKey a) = true)
      (get_sessions_from_local_storage .missing "user-1" 10) := by
  have h := get_sessions_from_local_storage_spec .missing "user-1" 10
  exact ⟨h.1 (Or.inl rfl), h.2.1, h.2.2.1, h.2.2.2⟩

/-- C4: `save_to_database` is total (never raises) and returns a boolean.
When a client is configured and the insert reports an error or raises, the
call is exactly the local-storage save, so the returned boolean is the
local write result; and `False` comes back precisely when the remote tier
did not succeed and the local write failed. -/
theorem save_to_database_spec (env : DBEnv) (session_data : Record) :
    (env.hasClient = true → env.insertOutcome ≠ RemoteInsert.ok →
      (save_to_database env session_data).1 =
        (save_to_local_storage env.fs env.writeOk env.failedFs session_data).1 ∧
      (save_to_database env session_data).2.2 =
        (save_to_local_storage env.fs env.writeOk env.failedFs session_data).2) ∧
    ((save_to_database env session_data).1 = false ↔
      ¬(env.hasClient = true ∧ env.insertOutcome = RemoteInsert.ok) ∧
      (save_to_local_storage env.fs env.writeOk env.failedFs session_data).1 = false) := by
  constructor
  · intro hc hok
    cases ho : env.insertOutcome with
    | ok => exact absurd ho hok
    | errorResp => simp [save_to_database, hc, ho]
    | throws => simp [save_to_database, hc, ho]
  · cases hc : env.hasClient with
    | false => simp [save_to_database, hc]
    | true =>
      cases ho : env.insertOutcome with
      | ok => simp [save_to_database, hc, ho]
      | errorResp => simp [save_to_database, hc, ho]
      | throws => simp [save_to_database, hc, ho]

/-- Environment used to instantiate the C4 witness: configured client whose
insert raises, and a local write that fails. -/
def envC4 : DBEnv where
  hasClient := true
  insertOutcome := RemoteInsert.throws
  remoteRows := []
  fs := FileState.missing
  writeOk := false
  failedFs := FileState.corrupt

/-- Witness for C4: with the remote insert raising and the local write
failing, the call degrades to the local tier and returns `False`. -/
theorem save_to_database_spec_witness :
    ((save_to_database envC4 ⟨[("user_id", "u")]⟩).1 =
        (save_to_local_storage envC4.fs envC4.writeOk envC4.failedFs ⟨[("user_id", "u")]⟩).1 ∧
      (save_to_database envC4 ⟨[("user_id", "u")]⟩).2.2 =
        (save_to_local_storage envC4.fs envC4.writeOk envC4.failedFs ⟨[("user_id", "u")]⟩).2) ∧
    ((save_to_database envC4 ⟨[("user_id", "u")]⟩).1 = false ↔
      ¬(envC4.hasClient = true ∧ envC4.insertOutcome = RemoteInsert.ok) ∧
      (save_to_local_storage envC4.fs envC4.writeOk envC4.failedFs ⟨[("user_id", "u")]⟩).1 = false) := by
  have h := save_to_database_spec envC4 ⟨[("user_id", "u")]⟩
  exact ⟨h.1 rfl (by decide), h.2⟩

/-- C8: each persistence operation uses exactly one tier.  A save either
goes through the remote tier (the row is appended remotely and the local
file is untouched) or through the local tier (the remote rows are
untouched and boolean and file state are those of the local save); a load
is sourced either entirely from the remote response or entirely from the
local file, never merged. -/
theorem persistence_single_tier (env : DBEnv) (session_data : Record)
    (lenv : LoadEnv) (user_id : String) (limit : Nat) :
    (((save_to_database env session_data).2.1 = env.remoteRows ++ [session_data] ∧
      (save_to_database env session_data).1 = true ∧
      (save_to_database env session_data).2.2 = env.fs) ∨
     ((save_to_database env session_data).2.1 = env.remoteRows ∧
      (save_to_database env session_data).1 =
        (save_to_local_storage env.fs env.writeOk env.failedFs session_data).1 ∧
      (save_to_database env session_data).2.2 =
        (save_to_local_storage env.fs env.writeOk env.failedFs session_data).2)) ∧
    ((∃ d, lenv.hasClient = true ∧ lenv.queryOutcome = RemoteQuery.ok d ∧
        get_previous_sessions lenv user_id limit = d) ∨
      get_previous_sessions lenv user_id limit =
        get_sessions_from_local_storage lenv.fs user_id limit) := by
  constructor
  · cases hc : env.hasClient with
    | false => right; simp [save_to_database, hc]
    | true =>
      cases ho : env.insertOutcome with
      | ok => left; simp [save_to_database, hc, ho]
      | errorResp => right; simp [save_to_database, hc, ho]
      | throws => right; simp [save_to_database, hc, ho]
  · cases hc : lenv.hasClient with
    | false => right; simp [get_previous_sessions, hc]
    | true =>
      cases ho : lenv.queryOutcome with
      | ok d => exact Or.inl ⟨d, rfl, rfl, by simp [get_previous_sessions, hc, ho]⟩
      | errorResp => right; simp [get_previous_sessions, hc, ho]
      | throws => right; simp [get_previous_sessions, hc, ho]

/-- C10: frame property of the local save.  Starting from any file state
that parses as a JSON array, a successful `save_to_local_storage` writes
back exactly the old array with the one new record appended at its end. -/
theorem save_to_local_storage_frame (records : List Record) (writeOk : Bool)
    (failedFs : FileState) (session_data : Record)
    (h : (save_to_local_storage (FileState.arr records) writeOk failedFs session_data).1 = true) :
    (save_to_local_storage (FileState.arr records) writeOk failedFs session_data).2 =
      FileState.arr (records ++ [session_data]) := by
  cases writeOk with
  | false => simp [save_to_local_storage] at h
  | true => simp [save_to_local_storage, dataOf]

/-- Witness for C10 at a concrete one-record array. -/
theorem save_to_local_storage_frame_witness :
    (save_to_local_storage (FileState.arr [⟨[("user_id", "u1")]⟩]) true
        FileState.missing ⟨[("user_id", "u2")]⟩).2 =
      FileState.arr [⟨[("user_id", "u1")]⟩, ⟨[("user_id", "u2")]⟩] :=
  save_to_local_storage_frame [⟨[("user_id", "u1")]⟩] true FileState.missing
    ⟨[("user_id", "u2")]⟩ rfl

/-- Pre-existing stored session used by the C6 counterexample: same user,
later timestamp than the session saved afterwards. -/
def storedNewerC6 : Record :=
  ⟨[("session_id", "s1"), ("user_id", "u1"), ("problem", "p1"), ("context", "c1"),
    ("response", "r1"), ("timestamp", "2024-05-02T00:00:00")]⟩

/-- Session saved by the C6 counterexample, carrying the earlier
timestamp. -/
def savedOlderC6 : Record :=
  ⟨[("session_id", "s2"), ("user_id", "u1"), ("problem", "p2"), ("context", "c2"),
    ("response", "r2"), ("timestamp", "2024-05-01T00:00:00")]⟩

unseal List.merge List.mergeSort in
/-- C6 counterexample: a successful save followed immediately by a load of
the same user with `limit=1` does NOT always return the saved session.
When the file already holds a session of the same user with a later
timestamp, the load returns that session instead. -/
theorem save_then_load_limit1_counterexample :
    (save_to_local_storage (FileState.arr [storedNewerC6]) true FileState.missing
        savedOlderC6).1 = true ∧
    get_sessions_from_local_storage
        (save_to_local_storage (FileState.arr [storedNewerC6]) true FileState.missing
          savedOlderC6).2 "u1" 1 ≠ [savedOlderC6] ∧
    get_sessions_from_local_storage
        (save_to_local_storage (FileState.arr [storedNewerC6]) true FileState.missing
          savedOlderC6).2 "u1" 1 = [storedNewerC6] := by
  refine ⟨rfl, ?_, ?_⟩ <;> decide

/-- C6 amended: on the local-storage tier, a successful save followed
immediately by a load for the same `user_id` with `limit=1` returns
exactly the saved session, provided the saved session carries the queried
`user_id` and its timestamp is strictly later than that of every record of
the same user already in the file (in particular when the file was missing
or empty). -/
theorem save_then_load_limit1_roundtrip (fs : FileState) (writeOk : Bool)
    (failedFs : FileState) (session_data : Record) (user_id : String)
    (hSave : (save_to_local_storage fs writeOk failedFs session_data).1 = true)
    (hUser : session_data.get "user_id" = some user_id)
    (hNewest : ∀ r ∈ dataOf fs, r.get "user_id" = some user_id →
      pyStrLe (tsKey session_data) (tsKey r) = false) :
    get_sessions_from_local_storage
      (save_to_local_storage fs writeOk failedFs session_data).2 user_id 1 =
      [session_data] := by
  have hW : writeOk = true := by
    cases writeOk with
    | true => rfl
    | false => cases fs <;> simp [save_to_local_storage] at hSave
  subst hW
  have h2 : (save_to_local_storage fs true failedFs session_data).2 =
      FileState.arr (dataOf fs ++ [session_data]) := by
    cases fs <;> simp [save_to_local_storage, dataOf] at hSave ⊢
  rw [h2]
  simp only [get_sessions_from_local_storage]
  have hps : (session_data.get "user_id" == some user_id) = true := by simp [hUser]
  have hfilter : (dataOf fs ++ [session_data]).filter
        (fun s => s.get "user_id" == some user_id) =
      (dataOf fs).filter (fun s => s.get "user_id" == some user_id) ++ [session_data] := by
    simp [List.filter_append, hps]
  rw [hfilter]
  have hmem : session_data ∈
      ((dataOf fs).filter (fun s => s.get "user_id" == some user_id)
        ++ [session_data]).mergeSort tsGe :=
    List.mem_mergeSort.mpr (by simp)
  have hsorted := @List.sorted_mergeSort _ tsGe
    (fun a b c => tsGe_trans a b c) (fun a b => tsGe_total a b)
    ((dataOf fs).filter (fun s => s.get "user_id" == some user_id) ++ [session_data])
  cases hLc : ((dataOf fs).filter (fun s => s.get "user_id" == some user_id)
      ++ [session_data]).mergeSort tsGe with
  | nil => rw [hLc] at hmem; simp at hmem
  | cons y t =>
    rw [hLc] at hmem hsorted
    have hy : y = session_data := by
      by_contra hne
      have hst : session_data ∈ t := by
        rcases List.mem_cons.mp hmem with h | h
        · exact absurd h.symm hne
        · exact h
      have hges : tsGe y session_data = true := (List.pairwise_cons.mp hsorted).1 _ hst
      have hyL : y ∈ ((dataOf fs).filter (fun s => s.get "user_id" == some user_id)
          ++ [session_data]).mergeSort tsGe := by
        rw [hLc]
        exact List.mem_cons_self _ _
      have hyA := List.mem_mergeSort.mp hyL
      rcases List.mem_append.mp hyA with hyF | hyS
      · have hf := List.mem_filter.mp hyF
        have hyU : y.get "user_id" = some user_id := by simpa using hf.2
        have hlt := hNewest y hf.1 hyU
        rw [tsGe] at hges
        rw [hges] at hlt
        exact Bool.noConfusion hlt
      · simp at hyS
        exact hne hyS
    subst hy
    rfl

/-- Concrete environment for the C6 amended witness: empty prior file. -/
def savedFreshC6 : Record :=
  ⟨[("session_id", "s3"), ("user_id", "u9"), ("problem", "p"), ("context", "c"),
    ("response", "r"), ("timestamp", "2024-06-01T12:00:00")]⟩

unseal List.merge List.mergeSort in
/-- Witness for the amended C6 on a missing prior file. -/
theorem save_then_load_limit1_roundtrip_witness :
    get_sessions_from_local_storage
      (save_to_local_storage FileState.missing true FileState.corrupt savedFreshC6).2
      "u9" 1 = [savedFreshC6] :=
  save_then_load_limit1_roundtrip FileState.missing true FileState.corrupt
    savedFreshC6 "u9" rfl (by decide) (by decide)

/-! ### Document export, from `utils/pdf_service.py` -/

/-- Rendering operations issued against the FPDF object, in source order.
The border, line-break and alignment flags of `cell`, and the page
header/footer callbacks of the `StrategyPDF` subclass, are page chrome and
are not modelled. -/
inductive PdfOp
  | setFont (family style : String) (size : Nat)
  | cell (w h : Nat) (txt : String)
  | multiCell (w h : Nat) (txt : String)
  | ln (h : Nat)
  | drawLine
deriving DecidableEq, Repr

/-- Result of `export_to_pdf`: the fixed placeholder bytes when FPDF is
missing, otherwise the rendered operation stream (the source returns it
serialised as an in-memory byte buffer). -/
inductive PdfExport
  | placeholder (payload : String)
  | document (ops : List PdfOp)
deriving DecidableEq, Repr

/-- Python `s.startswith(pre)`, modelled on the character lists. -/
def pyStartswith (s pre : String) : Bool := pre.data.isPrefixOf s.data

/-- CPython whitespace predicate for `str.strip()` (the characters of the
interpreter's Unicode whitespace table): tab through carriage return
(U+0009 to U+000D), the separators U+001C to U+001F, space, next line
U+0085, no-break space U+00A0, ogham space mark U+1680, the typographic
spaces U+2000 to U+200A, line and paragraph separators U+2028 and U+2029,
narrow no-break space U+202F, medium mathematical space U+205F and
ideographic space U+3000. -/
def pyIsSpace (c : Char) : Bool :=
  (9 ≤ c.toNat && c.toNat ≤ 13) || (28 ≤ c.toNat && c.toNat ≤ 31) ||
  c.toNat == 32 || c.toNat == 133 || c.toNat == 160 || c.toNat == 5760 ||
  (8192 ≤ c.toNat && c.toNat ≤ 8202) || c.toNat == 8232 || c.toNat == 8233 ||
  c.toNat == 8239 || c.toNat == 8287 || c.toNat == 12288

/-- Python `s.strip() == `` (the blank-line test of the source): every
character is stripped, that is, lies in the interpreter's whitespace
table. -/
def pyBlank (s : String) : Bool := s.data.all pyIsSpace

/-- Python `s[n:]` on strings, by characters. -/
def strDrop (s : String) (n : Nat) : String := ⟨s.data.drop n⟩

/-- Bullet glyph prepended by the source (the literal bytes that appear in
`pdf_service.py`). -/
def bulletGlyph : String := "â€¢ "

/-- Placeholder payload returned when FPDF is unavailable. -/
def pdfDisabledMessage : String :=
  "PDF export is not available because the FPDF package is not installed."

/-- Translation of the per-line transform in the body loop of
`export_to_pdf`: markdown heading markers map to emphasised fonts with the
marker stripped and the default font restored, bullet markers map to an
indent cell plus the glyph-prefixed text, blank lines map to vertical
spacing, and anything else is a body paragraph. -/
def renderLine (line : String) : List PdfOp :=
  if pyStartswith line "# " then
    [PdfOp.setFont "Arial" "B" 14, PdfOp.multiCell 0 10 (strDrop line 2),
     PdfOp.setFont "Arial" "" 11]
  else if pyStartswith line "## " then
    [PdfOp.setFont "Arial" "B" 12, PdfOp.multiCell 0 10 (strDrop line 3),
     PdfOp.setFont "Arial" "" 11]
  else if pyStartswith line "### " then
    [PdfOp.setFont "Arial" "BI" 11, PdfOp.multiCell 0 10 (strDrop line 4),
     PdfOp.setFont "Arial" "" 11]
  else if pyStartswith line "- " then
    [PdfOp.cell 5 10 "", PdfOp.multiCell 0 10 (bulletGlyph ++ strDrop line 2)]
  else if pyBlank line then
    [PdfOp.ln 5]
  else
    [PdfOp.multiCell 0 10 line]

/-- Translation of `export_to_pdf`: the placeholder when FPDF is missing,
otherwise the header block (problem, optional context, divider, section
title) followed by the line-oriented transform of the response. -/
def export_to_pdf (FPDF_AVAILABLE : Bool)
    (business_problem context strategy_response : String) : PdfExport :=
  if !FPDF_AVAILABLE then
    PdfExport.placeholder pdfDisabledMessage
  else
    PdfExport.document (
      [PdfOp.setFont "Arial" "B" 12, PdfOp.cell 0 10 "Business Problem:",
       PdfOp.setFont "Arial" "" 11, PdfOp.multiCell 0 10 business_problem, PdfOp.ln 5]
      ++ (if context == "" then [] else
        [PdfOp.setFont "Arial" "B" 12, PdfOp.cell 0 10 "Additional Context:",
         PdfOp.setFont "Arial" "" 11, PdfOp.multiCell 0 10 context, PdfOp.ln 5])
      ++ [PdfOp.drawLine, PdfOp.ln 10, PdfOp.setFont "Arial" "B" 14,
          PdfOp.cell 0 10 "Strategic Plan", PdfOp.ln 5, PdfOp.setFont "Arial" "" 11]
      ++ (strategy_response.splitOn "\n").flatMap renderLine)

/-- Texts emitted by `multiCell` operations, each paired with the font
style and size active when it is emitted, starting from the given font
state. -/
def textsFrom : String × Nat → List PdfOp → List (String × String × Nat)
  | _, [] => []
  | _, PdfOp.setFont _ st sz :: rest => textsFrom (st, sz) rest
  | f, PdfOp.multiCell _ _ t :: rest => (t, f.1, f.2) :: textsFrom f rest
  | f, PdfOp.cell _ _ _ :: rest => textsFrom f rest
  | f, PdfOp.ln _ :: rest => textsFrom f rest
  | f, PdfOp.drawLine :: rest => textsFrom f rest

/-- Font state after running a list of operations. -/
def fontAfter : String × Nat → List PdfOp → String × Nat
  | f, [] => f
  | _, PdfOp.setFont _ st sz :: rest => fontAfter (st, sz) rest
  | f, PdfOp.cell _ _ _ :: rest => fontAfter f rest
  | f, PdfOp.multiCell _ _ _ :: rest => fontAfter f rest
  | f, PdfOp.ln _ :: rest => fontAfter f rest
  | f, PdfOp.drawLine :: rest => fontAfter f rest

/-- C7: with the renderer unavailable, `export_to_pdf` returns, for every
input triple, the same fixed non-empty placeholder payload; the model is a
total function, so no exception escapes. -/
theorem export_to_pdf_placeholder (business_problem context strategy_response
    business_problem2 context2 strategy_response2 : String) :
    export_to_pdf false business_problem context strategy_response =
      PdfExport.placeholder pdfDisabledMessage ∧
    pdfDisabledMessage ≠ "" ∧
    export_to_pdf false business_problem context strategy_response =
      export_to_pdf false business_problem2 context2 strategy_response2 :=
  ⟨rfl, by decide, rfl⟩

/-- Helper: `pyStartswith` as a prefix relation on character lists. -/
theorem pyStartswith_iff (s pre : String) :
    pyStartswith s pre = true ↔ pre.data <+: s.data := by
  rw [pyStartswith, List.isPrefixOf_iff_prefix]

/-- Helper: a line cannot start with two markers of which neither is a
prefix of the other. -/
theorem pyStartswith_false_of_incomparable (s pre1 pre2 : String)
    (hs : pyStartswith s pre1 = true)
    (h12 : List.isPrefixOf pre1.data pre2.data = false)
    (h21 : List.isPrefixOf pre2.data pre1.data = false) :
    pyStartswith s pre2 = false := by
  rw [Bool.eq_false_iff]
  intro hc
  rw [pyStartswith_iff] at hs hc
  rcases List.prefix_or_prefix_of_prefix hs hc with h | h
  · rw [← List.isPrefixOf_iff_prefix] at h
    rw [h12] at h
    exact Bool.noConfusion h
  · rw [← List.isPrefixOf_iff_prefix] at h
    rw [h21] at h
    exact Bool.noConfusion h

/-- Helper: a whitespace-only line starts with no marker whose first
character is not whitespace. -/
theorem pyStartswith_false_of_blank (s pre : String) (c : Char) (t : List Char)
    (hpre : pre.data = c :: t) (hc : pyIsSpace c = false)
    (hb : pyBlank s = true) : pyStartswith s pre = false := by
  rw [Bool.eq_false_iff]
  intro hs
  rw [pyStartswith_iff, hpre] at hs
  obtain ⟨u, hu⟩ := hs
  rw [pyBlank, ← hu] at hb
  simp [List.all_cons] at hb
  rw [hb.1] at hc
  exact Bool.noConfusion hc

/-- C9: the line transform of `export_to_pdf`.  Heading lines of all three
levels emit exactly the marker-stripped text at three mutually distinct
emphasised fonts, bullet lines emit the fixed-width indent cell plus the
glyph-prefixed text, whitespace-only lines emit vertical spacing only, and
every other line is one body paragraph in the default font; after every
line the font state is back at the default, so each line of the response
is classified under the default font. -/
theorem export_to_pdf_render_line (line : String) :
    (pyStartswith line "# " = true →
      renderLine line = [PdfOp.setFont "Arial" "B" 14,
        PdfOp.multiCell 0 10 (strDrop line 2), PdfOp.setFont "Arial" "" 11] ∧
      textsFrom ("", 11) (renderLine line) = [(strDrop line 2, "B", 14)]) ∧
    (pyStartswith line "## " = true →
      renderLine line = [PdfOp.setFont "Arial" "B" 12,
        PdfOp.multiCell 0 10 (strDrop line 3), PdfOp.setFont "Arial" "" 11] ∧
      textsFrom ("", 11) (renderLine line) = [(strDrop line 3, "B", 12)]) ∧
    (pyStartswith line "### " = true →
      renderLine line = [PdfOp.setFont "Arial" "BI" 11,
        PdfOp.multiCell 0 10 (strDrop line 4), PdfOp.setFont "Arial" "" 11] ∧
      textsFrom ("", 11) (renderLine line) = [(strDrop line 4, "BI", 11)]) ∧
    ((("B", 14) ≠ (("B", 12) : String × Nat)) ∧
      (("B", 14) ≠ (("BI", 11) : String × Nat)) ∧
      (("B", 12) ≠ (("BI", 11) : String × Nat))) ∧
    (pyStartswith line "- " = true →
      renderLine line = [PdfOp.cell 5 10 "",
        PdfOp.multiCell 0 10 (bulletGlyph ++ strDrop line 2)]) ∧
    (pyBlank line = true → renderLine line = [PdfOp.ln 5]) ∧
    (pyStartswith line "# " = false → pyStartswith line "## " = false →
      pyStartswith line "### " = false → pyStartswith line "- " = false →
      pyBlank line = false →
      renderLine line = [PdfOp.multiCell 0 10 line] ∧
      textsFrom ("", 11) (renderLine line) = [(line, "", 11)]) ∧
    fontAfter ("", 11) (renderLine line) = ("", 11) := by
  refine ⟨?_, ?_, ?_, ⟨by decide, by decide, by decide⟩, ?_, ?_, ?_, ?_⟩
  · intro h1
    rw [renderLine, if_pos h1]
    exact ⟨rfl, rfl⟩
  · intro h2
    have h1 := pyStartswith_false_of_incomparable line "## " "# " h2 (by decide) (by decide)
    rw [renderLine, if_neg (by simp [h1]), if_pos h2]
    exact ⟨rfl, rfl⟩
  · intro h3
    have h1 := pyStartswith_false_of_incomparable line "### " "# " h3 (by decide) (by decide)
    have h2 := pyStartswith_false_of_incomparable line "### " "## " h3 (by decide) (by decide)
    rw [renderLine, if_neg (by simp [h1]), if_neg (by simp [h2]), if_pos h3]
    exact ⟨rfl, rfl⟩
  · intro hd
    have h1 := pyStartswith_false_of_incomparable line "- " "# " hd (by decide) (by decide)
    have h2 := pyStartswith_false_of_incomparable line "- " "## " hd (by decide) (by decide)
    have h3 := pyStartswith_false_of_incomparable line "- " "### " hd (by decide) (by decide)
    rw [renderLine, if_neg (by simp [h1]), if_neg (by simp [h2]), if_neg (by simp [h3]),
      if_pos hd]
  · intro hb
    have h1 := pyStartswith_false_of_blank line "# " '#' [' '] rfl (by decide) hb
    have h2 := pyStartswith_false_of_blank line "## " '#' ['#', ' '] rfl (by decide) hb
    have h3 := pyStartswith_false_of_blank line "### " '#' ['#', '#', ' '] rfl (by decide) hb
    have hd := pyStartswith_false_of_blank line "- " '-' [' '] rfl (by decide) hb
    rw [renderLine, if_neg (by simp [h1]), if_neg (by simp [h2]), if_neg (by simp [h3]),
      if_neg (by simp [hd]), if_pos hb]
  · intro h1 h2 h3 hd hb
    rw [renderLine, if_neg (by simp [h1]), if_neg (by simp [h2]), if_neg (by simp [h3]),
      if_neg (by simp [hd]), if_neg (by simp [hb])]
    exact ⟨rfl, rfl⟩
  · rw [renderLine]
    split
    · rfl
    split
    · rfl
    split
    · rfl
    split
    · rfl
    split
    · rfl
    · rfl

/-- Witness for C9: each branch of the line transform exercised at a
concrete line. -/
theorem export_to_pdf_render_line_witness :
    textsFrom ("", 11) (renderLine "# Top") = [(strDrop "# Top" 2, "B", 14)] ∧
    textsFrom ("", 11) (renderLine "## Strategy 1") =
      [(strDrop "## Strategy 1" 3, "B", 12)] ∧
    textsFrom ("", 11) (renderLine "### Sub") = [(strDrop "### Sub" 4, "BI", 11)] ∧
    renderLine "- item" = [PdfOp.cell 5 10 "",
      PdfOp.multiCell 0 10 (bulletGlyph ++ strDrop "- item" 2)] ∧
    renderLine "  " = [PdfOp.ln 5] ∧
    renderLine "plain body text" = [PdfOp.multiCell 0 10 "plain body text"] ∧
    fontAfter ("", 11) (renderLine "# Top") = ("", 11) :=
  ⟨((export_to_pdf_render_line "# Top").1 (by decide)).2,
   ((export_to_pdf_render_line "## Strategy 1").2.1 (by decide)).2,
   ((export_to_pdf_render_line "### Sub").2.2.1 (by decide)).2,
   (export_to_pdf_render_line "- item").2.2.2.2.1 (by decide),
   (export_to_pdf_render_line "  ").2.2.2.2.2.1 (by decide),
   ((export_to_pdf_render_line "plain body text").2.2.2.2.2.2.1 (by decide) (by decide)
     (by decide) (by decide) (by decide)).1,
   (export_to_pdf_render_line "# Top").2.2.2.2.2.2.2⟩

end PlanMind
